import Mathlib

/-
Verification of the similarity-aware cache (`backend/app/cache_manager.py`)
and the mesh quality evaluator (`backend/app/evaluation_system.py`) of the
three-dimensional-model-generation repository, as a shallow embedding.

External libraries (trimesh, sentence_transformers, sklearn, cv2, hashlib,
the file system and sqlite) are modelled as parameters or as fields holding
the values the repository's code branches on; Python floats are idealised
as rationals.  Lists model sqlite tables in rowid (insertion) order, which
is the order an unordered SELECT returns for these append/replace-only
tables.
-/

namespace ModelGen

/-- Mesh data as produced by the external `trimesh` library.  The evaluator
only branches on these derived quantities, so they are modelled as fields:
`vertices`/`faces` are `len(mesh.vertices)`/`len(mesh.faces)`,
`degenerate_faces` the number of faces of area below `1e-10`,
`is_watertight`/`is_self_intersecting` the trimesh flags,
`has_uv`/`has_vertex_colors`/`has_material` the `mesh.visual` attribute
checks, `volume_positive` whether `mesh.volume` computes without error and is
positive, and `aspect_under_10` whether `mesh.bounds` has at least two rows,
every extent is positive and the largest extent ratio is below 10. -/
structure Mesh where
  vertices : Nat
  faces : Nat
  is_watertight : Bool
  is_self_intersecting : Bool
  degenerate_faces : Nat
  has_uv : Bool
  has_vertex_colors : Bool
  has_material : Bool
  volume_positive : Bool
  aspect_under_10 : Bool
deriving DecidableEq, Repr

/-- Embedding of `EvaluationSystem._evaluate_geometry`: start from 1.0,
subtract 0.2 if not watertight, 0.3 if self-intersecting, 0.1 if the
face/vertex ratio is outside [1.5, 3.0], up to 0.2 for degenerate faces,
0.3 if fewer than 10 vertices, 0.1 if more than 100000; clamp below at 0. -/
def evaluate_geometry (m : Mesh) : ℚ :=
  let s0 : ℚ := 1
  let s1 := if m.is_watertight then s0 else s0 - 2/10
  let s2 := if m.is_self_intersecting then s1 - 3/10 else s1
  let s3 :=
    if 0 < m.vertices then
      let fvr : ℚ := (m.faces : ℚ) / (m.vertices : ℚ)
      if fvr < 3/2 ∨ 3 < fvr then s2 - 1/10 else s2
    else s2
  let s4 :=
    if 0 < m.degenerate_faces then
      s3 - min (2/10) ((m.degenerate_faces : ℚ) / (m.faces : ℚ) * (1/2))
    else s3
  let s5 :=
    if m.vertices < 10 then s4 - 3/10
    else if 100000 < m.vertices then s4 - 1/10
    else s4
  max 0 s5

/-- Python's `str.endswith`, on the character lists of the strings. -/
def str_ends_with (s suffix : String) : Bool :=
  suffix.toList.isSuffixOf s.toList

/-- Python's `model_path.replace(".obj", ".mtl")` with the constant
arguments of the source: every (left-to-right, non-overlapping) occurrence
of `.obj` is replaced by `.mtl`. -/
def replace_obj_mtl : List Char → List Char
  | '.' :: 'o' :: 'b' :: 'j' :: t => '.' :: 'm' :: 't' :: 'l' :: replace_obj_mtl t
  | a :: t => a :: replace_obj_mtl t
  | [] => []

/-- String version of `replace_obj_mtl`. -/
def replace_obj_with_mtl (s : String) : String :=
  String.mk (replace_obj_mtl s.toList)

/-- Embedding of `EvaluationSystem._evaluate_texture`: start from 0.5, add
0.2 for UV coordinates, 0.2 for vertex colors, 0.1 for material data, 0.2
when the path ends in `.obj` and a sibling `.mtl` file exists (Python's
`str.replace` replaces every occurrence, as does `replace_obj_with_mtl`);
clamp above at 1.  The file system is the predicate `fs`
(`os.path.exists`). -/
def evaluate_texture (m : Mesh) (model_path : String) (fs : String → Bool) : ℚ :=
  let s0 : ℚ := 1/2
  let s1 := if m.has_uv then s0 + 2/10 else s0
  let s2 := if m.has_vertex_colors then s1 + 2/10 else s1
  let s3 := if m.has_material then s2 + 1/10 else s2
  let s4 :=
    if str_ends_with model_path ".obj" && fs (replace_obj_with_mtl model_path)
    then s3 + 2/10 else s3
  min 1 s4

/-- Substring test on lists of characters, mirroring Python's `in` operator
for strings: the empty word is contained in every text. -/
def containsSub [DecidableEq α] (w : List α) : List α → Bool
  | [] => w.isEmpty
  | a :: t => w.isPrefixOf (a :: t) || containsSub w t

/-- Python `word in text` for strings. -/
def str_contains (t w : String) : Bool :=
  containsSub w.toList t.toList

/-- Python `any(word in text for word in words)`. -/
def containsAny (t : String) (ws : List String) : Bool :=
  ws.any (fun w => str_contains t w)

def simple_words : List String := ["simple", "basic", "cube", "sphere"]

def complex_words : List String := ["detailed", "complex", "intricate"]

/-- Python's `str.lower`, via `Char.toLower` on the character list. -/
def to_lower (s : String) : String :=
  String.mk (s.toList.map Char.toLower)

/-- Embedding of `EvaluationSystem._evaluate_fidelity`: base 0.7; for text
input, keyword heuristics against the vertex count plus a bounding-box
aspect bonus; for image input a fixed +0.1; clamp to [0, 1]. -/
def evaluate_fidelity (m : Mesh) (input_data input_type : String) : ℚ :=
  let base : ℚ := 7/10
  let s :=
    if input_type == "text" then
      let tl := to_lower input_data
      let s1 :=
        if containsAny tl simple_words then
          (if m.vertices < 1000 then base + 2/10 else base - 1/10)
        else if containsAny tl complex_words then
          (if 500 < m.vertices then base + 2/10 else base - 1/10)
        else base
      if m.aspect_under_10 then s1 + 1/10 else s1
    else if input_type == "image" then base + 1/10
    else base
  min 1 (max 0 s)

/-- Embedding of `EvaluationSystem._evaluate_performance`: start from 1.0,
two-tier penalties for vertex and face counts, +0.1 for the reasonable
complexity band, +0.1 for a positive volume on a watertight mesh; clamp
below at 0 (there is no clamp above in the source). -/
def evaluate_performance (m : Mesh) : ℚ :=
  let s0 : ℚ := 1
  let s1 :=
    if 50000 < m.vertices then s0 - 2/10
    else if 20000 < m.vertices then s0 - 1/10
    else s0
  let s2 :=
    if 100000 < m.faces then s1 - 2/10
    else if 40000 < m.faces then s1 - 1/10
    else s1
  let s3 :=
    if 100 ≤ m.vertices ∧ m.vertices ≤ 10000 ∧ 100 ≤ m.faces ∧ m.faces ≤ 20000
    then s2 + 1/10 else s2
  let s4 := if m.is_watertight && m.volume_positive then s3 + 1/10 else s3
  max 0 s4

/-- The `quality_weights` dictionary of `EvaluationSystem.__init__`. -/
def quality_weights_geometry : ℚ := 3/10

def quality_weights_texture : ℚ := 2/10

def quality_weights_fidelity : ℚ := 3/10

def quality_weights_performance : ℚ := 2/10

/-- Row of the `evaluation_results` table as written by
`EvaluationSystem._store_evaluation` (the wall-clock `evaluation_time`
column is not modelled). -/
structure EvaluationRecord where
  model_path : String
  input_data : String
  input_type : String
  geometry_score : ℚ
  texture_score : ℚ
  fidelity_score : ℚ
  performance_score : ℚ
  overall_score : ℚ
  vertex_count : Nat
  face_count : Nat
deriving DecidableEq, Repr

/-- Environment of the evaluator: `fs` is `os.path.exists` and `load_mesh`
the result of `trimesh.load` (`none` when loading raises or yields neither a
`Trimesh` nor a scene with a usable geometry). -/
structure EvalEnv where
  fs : String → Bool
  load_mesh : String → Option Mesh

/-- Embedding of `EvaluationSystem.evaluate_model`: missing file or
unloadable mesh returns 0.0 at once (no record is stored); otherwise the
four sub-scores are computed, the weighted overall score is returned and a
record is appended to the `evaluation_results` table. -/
def evaluate_model (env : EvalEnv) (model_path input_data input_type : String)
    (db : List EvaluationRecord) : ℚ × List EvaluationRecord :=
  if env.fs model_path then
    match env.load_mesh model_path with
    | none => (0, db)
    | some mesh =>
      let geometry_score := evaluate_geometry mesh
      let texture_score := evaluate_texture mesh model_path env.fs
      let fidelity_score := evaluate_fidelity mesh input_data input_type
      let performance_score := evaluate_performance mesh
      let overall_score :=
        geometry_score * quality_weights_geometry +
        texture_score * quality_weights_texture +
        fidelity_score * quality_weights_fidelity +
        performance_score * quality_weights_performance
      (overall_score,
       db ++ [{ model_path := model_path, input_data := input_data,
                input_type := input_type, geometry_score := geometry_score,
                texture_score := texture_score,
                fidelity_score := fidelity_score,
                performance_score := performance_score,
                overall_score := overall_score,
                vertex_count := mesh.vertices, face_count := mesh.faces }])
  else (0, db)

/-- Row of the `text_cache` table. -/
structure TextCacheRecord where
  id : Nat
  input_hash : String
  input_text : String
  embedding : List ℚ
  model_path : String
  quality_score : ℚ
  generation_time : ℚ
  created_at : Nat
  last_accessed : Nat
  access_count : Nat
deriving DecidableEq, Repr

/-- Row of the `image_cache` table. -/
structure ImageCacheRecord where
  id : Nat
  input_hash : String
  image_path : String
  features : List ℚ
  model_path : String
  quality_score : ℚ
  generation_time : ℚ
  created_at : Nat
  last_accessed : Nat
  access_count : Nat
deriving DecidableEq, Repr

/-- The two sqlite tables of the cache database in rowid order, plus the
autoincrement counters. -/
structure CacheState where
  text_cache : List TextCacheRecord
  image_cache : List ImageCacheRecord
  next_text_id : Nat
  next_image_id : Nat
deriving DecidableEq, Repr

/-- Dictionary returned by a cache hit (`id` is omitted; `similarity` is
present exactly on similar hits, as in the source). -/
structure CacheHit where
  model_path : String
  quality_score : ℚ
  generation_time : ℚ
  cache_type : String
  similarity : Option ℚ
deriving DecidableEq, Repr

/-- Environment of the cache manager.  `md5` is `hashlib.md5(...).hexdigest`
(an arbitrary function of the raw bytes); `text_model` is the
SentenceTransformer encoder, `none` when loading it failed in `__init__`;
`cos_sim` is sklearn's `cosine_similarity` (external, modelled from the
spec: the normalized dot-product measure of vector closeness);
`read_file` returns the raw bytes of an existing file and `none` for a
missing one; `extract_features` is `_extract_image_features` (`none` when
cv2 cannot read the image). -/
structure CacheEnv where
  md5 : String → String
  text_model : Option (String → List ℚ)
  cos_sim : List ℚ → List ℚ → ℚ
  read_file : String → Option String
  extract_features : String → Option (List ℚ)
  similarity_threshold : ℚ

/-- The similarity scan shared by `_get_cached_text_model` and
`_get_cached_image_model` (lines 185-204 and 309-328): iterate over the
stored rows in rowid order keeping `best_similarity` (initially 0) and
`best_match` (initially absent); a row replaces the current best exactly
when its similarity is strictly greater than `best_similarity` and at least
the threshold. -/
def scan_similar (sim : α → ℚ) (threshold : ℚ) :
    List α → ℚ → Option α → Option α
  | [], _, best_match => best_match
  | x :: xs, best, best_match =>
    if best < sim x ∧ threshold ≤ sim x then
      scan_similar sim threshold xs (sim x) (some x)
    else
      scan_similar sim threshold xs best best_match

/-- The complete similar-match search: the scan started from
`best_similarity = 0` and no match. -/
def similar_search (sim : α → ℚ) (threshold : ℚ) (store : List α) : Option α :=
  scan_similar sim threshold store 0 none

/-- Maximum of the similarities of `x :: xs`. -/
def best_sim (sim : α → ℚ) (x : α) (xs : List α) : ℚ :=
  xs.foldl (fun b y => max b (sim y)) (sim x)

/-- Modelled from the spec: `nearest(vector, threshold)` returns the single
record with the highest similarity value, but only if that value is
`>= threshold` (exactly-at-threshold counts as a hit); ties are broken by
the earliest-created record; nothing is returned for an empty store or when
the best similarity is below the threshold. -/
def nearest_spec (sim : α → ℚ) (threshold : ℚ) : List α → Option α
  | [] => none
  | x :: xs =>
    let M := best_sim sim x xs
    if threshold ≤ M then (x :: xs).find? (fun y => decide (sim y = M))
    else none

/-- The amended nearest contract: as `nearest_spec`, but a hit additionally
requires the best similarity to be strictly positive (forced by the scan's
initial `best_similarity = 0` together with its strict comparison). -/
def nearest_amended (sim : α → ℚ) (threshold : ℚ) : List α → Option α
  | [] => none
  | x :: xs =>
    let M := best_sim sim x xs
    if threshold ≤ M ∧ 0 < M then (x :: xs).find? (fun y => decide (sim y = M))
    else none

/-- The `UPDATE ... WHERE input_hash = ?` access bump of an exact text hit. -/
def touch_text_hash (h : String) (now : Nat) (l : List TextCacheRecord) :
    List TextCacheRecord :=
  l.map fun r =>
    if r.input_hash == h then
      { r with last_accessed := now, access_count := r.access_count + 1 }
    else r

/-- The `UPDATE ... WHERE id = ?` access bump of a similar text hit. -/
def touch_text_id (i : Nat) (now : Nat) (l : List TextCacheRecord) :
    List TextCacheRecord :=
  l.map fun r =>
    if r.id == i then
      { r with last_accessed := now, access_count := r.access_count + 1 }
    else r

/-- The `UPDATE ... WHERE input_hash = ?` access bump of an exact image hit. -/
def touch_image_hash (h : String) (now : Nat) (l : List ImageCacheRecord) :
    List ImageCacheRecord :=
  l.map fun r =>
    if r.input_hash == h then
      { r with last_accessed := now, access_count := r.access_count + 1 }
    else r

/-- The `UPDATE ... WHERE id = ?` access bump of a similar image hit. -/
def touch_image_id (i : Nat) (now : Nat) (l : List ImageCacheRecord) :
    List ImageCacheRecord :=
  l.map fun r =>
    if r.id == i then
      { r with last_accessed := now, access_count := r.access_count + 1 }
    else r

/-- Embedding of `CacheManager._get_cached_text_model`: return `none` when
the text model is unavailable; otherwise try the exact hash lookup first
(returning a hit of type "exact" and bumping the access stats), then the
similarity scan (returning a hit of type "similar"). -/
def get_cached_text_model (env : CacheEnv) (now : Nat) (text : String)
    (st : CacheState) : Option CacheHit × CacheState :=
  match env.text_model with
  | none => (none, st)
  | some enc =>
    let h := env.md5 text
    match st.text_cache.find? (fun r => r.input_hash == h) with
    | some r =>
      (some { model_path := r.model_path, quality_score := r.quality_score,
              generation_time := r.generation_time, cache_type := "exact",
              similarity := none },
       { st with text_cache := touch_text_hash h now st.text_cache })
    | none =>
      let emb := enc text
      match similar_search (fun r => env.cos_sim emb r.embedding)
          env.similarity_threshold st.text_cache with
      | some r =>
        (some { model_path := r.model_path, quality_score := r.quality_score,
                generation_time := r.generation_time, cache_type := "similar",
                similarity := some (env.cos_sim emb r.embedding) },
         { st with text_cache := touch_text_id r.id now st.text_cache })
      | none => (none, st)

/-- Embedding of `CacheManager._cache_text_model`: skip entirely when the
text model is unavailable; otherwise `INSERT OR REPLACE` keyed on the
content hash, which deletes any row with the same hash and appends a fresh
row with a new rowid, `access_count = 1` and both timestamps set to now. -/
def cache_text_model (env : CacheEnv) (now : Nat) (text model_path : String)
    (quality_score generation_time : ℚ) (st : CacheState) : CacheState :=
  match env.text_model with
  | none => st
  | some enc =>
    let h := env.md5 text
    { st with
      text_cache :=
        st.text_cache.filter (fun r => !(r.input_hash == h)) ++
          [{ id := st.next_text_id, input_hash := h, input_text := text,
             embedding := enc text, model_path := model_path,
             quality_score := quality_score,
             generation_time := generation_time,
             created_at := now, last_accessed := now, access_count := 1 }],
      next_text_id := st.next_text_id + 1 }

/-- Embedding of `CacheManager._get_cached_image_model`: `none` for a
missing image file; otherwise exact hash lookup on the file bytes, then
feature extraction (`none` result is a miss), then the similarity scan. -/
def get_cached_image_model (env : CacheEnv) (now : Nat) (image_path : String)
    (st : CacheState) : Option CacheHit × CacheState :=
  match env.read_file image_path with
  | none => (none, st)
  | some bytes =>
    let h := env.md5 bytes
    match st.image_cache.find? (fun r => r.input_hash == h) with
    | some r =>
      (some { model_path := r.model_path, quality_score := r.quality_score,
              generation_time := r.generation_time, cache_type := "exact",
              similarity := none },
       { st with image_cache := touch_image_hash h now st.image_cache })
    | none =>
      match env.extract_features image_path with
      | none => (none, st)
      | some feats =>
        match similar_search (fun r => env.cos_sim feats r.features)
            env.similarity_threshold st.image_cache with
        | some r =>
          (some { model_path := r.model_path,
                  quality_score := r.quality_score,
                  generation_time := r.generation_time,
                  cache_type := "similar",
                  similarity := some (env.cos_sim feats r.features) },
           { st with image_cache := touch_image_id r.id now st.image_cache })
        | none => (none, st)

/-- Embedding of `CacheManager._cache_image_model`: skip for a missing file
or unreadable image; otherwise `INSERT OR REPLACE` keyed on the byte hash. -/
def cache_image_model (env : CacheEnv) (now : Nat)
    (image_path model_path : String) (quality_score generation_time : ℚ)
    (st : CacheState) : CacheState :=
  match env.read_file image_path with
  | none => st
  | some bytes =>
    match env.extract_features image_path with
    | none => st
    | some feats =>
      let h := env.md5 bytes
      { st with
        image_cache :=
          st.image_cache.filter (fun r => !(r.input_hash == h)) ++
            [{ id := st.next_image_id, input_hash := h,
               image_path := image_path, features := feats,
               model_path := model_path, quality_score := quality_score,
               generation_time := generation_time,
               created_at := now, last_accessed := now, access_count := 1 }],
        next_image_id := st.next_image_id + 1 }

/-- Embedding of `CacheManager.get_cached_model`: dispatch on the
`input_type` string; unknown types log a warning and return `None`; the
surrounding `try/except` makes the operation total (modelled by totality). -/
def get_cached_model (env : CacheEnv) (now : Nat)
    (input_data input_type : String) (st : CacheState) :
    Option CacheHit × CacheState :=
  if input_type == "text" then get_cached_text_model env now input_data st
  else if input_type == "image" then get_cached_image_model env now input_data st
  else (none, st)

/-- Embedding of `CacheManager.cache_model`: dispatch on the `input_type`
string; unknown types log a warning and change nothing. -/
def cache_model (env : CacheEnv) (now : Nat)
    (input_data input_type model_path : String)
    (quality_score generation_time : ℚ) (st : CacheState) : CacheState :=
  if input_type == "text" then
    cache_text_model env now input_data model_path quality_score
      generation_time st
  else if input_type == "image" then
    cache_image_model env now input_data model_path quality_score
      generation_time st
  else st

/-- One store operation, for stating invariants over operation sequences. -/
inductive CacheOp where
  | storeText (now : Nat) (text model_path : String) (qs gt : ℚ)
  | storeImage (now : Nat) (image_path model_path : String) (qs gt : ℚ)

/-- Apply one store operation to the cache state. -/
def apply_op (env : CacheEnv) (st : CacheState) : CacheOp → CacheState
  | .storeText now text mp qs gt => cache_text_model env now text mp qs gt st
  | .storeImage now p mp qs gt => cache_image_model env now p mp qs gt st

/-- Apply a sequence of store operations in order. -/
def apply_ops (env : CacheEnv) (ops : List CacheOp) (st : CacheState) :
    CacheState :=
  ops.foldl (apply_op env) st

/-- The `UNIQUE` constraint on `input_hash` of both cache tables: each
fingerprint identifies at most one record per modality. -/
def hash_unique (st : CacheState) : Prop :=
  st.text_cache.Pairwise (fun a b => a.input_hash ≠ b.input_hash) ∧
  st.image_cache.Pairwise (fun a b => a.input_hash ≠ b.input_hash)

/-- Sum of the three feature bonuses of the texture sub-score that do not
involve the sibling material file. -/
def base_texture (m : Mesh) : ℚ :=
  1/2 + (if m.has_uv then (2 : ℚ)/10 else 0) +
    (if m.has_vertex_colors then (2 : ℚ)/10 else 0) +
    (if m.has_material then (1 : ℚ)/10 else 0)

/-- A perfectly triangulated sphere-like mesh (closed triangulation, so
faces = 2 * vertices - 4) with every texture feature present, of moderate
size; used to evaluate the weighted overall score on a best-case artifact. -/
def bug_mesh : Mesh :=
  { vertices := 1000, faces := 1996, is_watertight := true,
    is_self_intersecting := false, degenerate_faces := 0, has_uv := true,
    has_vertex_colors := true, has_material := true, volume_positive := true,
    aspect_under_10 := true }

/-- File system and loader for `bug_mesh`: the model file and its sibling
material file exist. -/
def bug_env : EvalEnv :=
  { fs := fun s => s == "sphere.obj" || s == "sphere.mtl",
    load_mesh := fun s => if s == "sphere.obj" then some bug_mesh else none }

/-- A second best-case mesh of a different size (5000 vertices, closed
triangulation). -/
def c7_mesh : Mesh :=
  { vertices := 5000, faces := 9996, is_watertight := true,
    is_self_intersecting := false, degenerate_faces := 0, has_uv := true,
    has_vertex_colors := true, has_material := true, volume_positive := true,
    aspect_under_10 := true }

/-- File system and loader for `c7_mesh`. -/
def c7_env : EvalEnv :=
  { fs := fun s => s == "castle.obj" || s == "castle.mtl",
    load_mesh := fun s => if s == "castle.obj" then some c7_mesh else none }

/-- A cache environment whose text model failed to load. -/
def trivial_env : CacheEnv :=
  { md5 := fun _ => "", text_model := none, cos_sim := fun _ _ => 0,
    read_file := fun _ => none, extract_features := fun _ => none,
    similarity_threshold := 85/100 }

/-- A cache environment with a working (trivial) text model and identity
fingerprint. -/
def text_env : CacheEnv :=
  { md5 := fun s => s, text_model := some (fun _ => []),
    cos_sim := fun _ _ => 0, read_file := fun _ => none,
    extract_features := fun _ => none, similarity_threshold := 85/100 }

/-- The empty cache database. -/
def empty_cache : CacheState :=
  { text_cache := [], image_cache := [], next_text_id := 0,
    next_image_id := 0 }

/-- Dot product of rational vectors; for unit-length vectors it coincides
with their cosine similarity. -/
def dotQ : List ℚ → List ℚ → ℚ
  | [], _ => 0
  | _, [] => 0
  | a :: u, b :: v => a * b + dotQ u v

/-- A stored record whose embedding (1, 0) is a unit vector orthogonal to
the unit query vector (0, 1), so their cosine similarity is exactly 0. -/
def ortho_record : TextCacheRecord :=
  { id := 0, input_hash := "h", input_text := "t", embedding := [1, 0],
    model_path := "m.obj", quality_score := 0, generation_time := 0,
    created_at := 0, last_accessed := 0, access_count := 1 }

/-- A record `y` of the store is a candidate at level `b` (similarity at
least the threshold and strictly above `b`) whose similarity weakly
dominates every candidate of `l`; the scan returns the first such record. -/
@[reducible]
def dominates (sim : α → ℚ) (thr b : ℚ) (l : List α) (y : α) : Prop :=
  thr ≤ sim y ∧ b < sim y ∧
    ∀ z ∈ l, thr ≤ sim z → b < sim z → sim z ≤ sim y

/- ------------------------------------------------------------------ -/
/- Theorems                                                            -/
/- ------------------------------------------------------------------ -/

/-- C2 (counterexample): with a missing artifact file, `evaluate_model`
returns 0.0 but does not persist any record, contrary to the claim that a
record with zero sub-scores is still stored. -/
theorem evaluate_model_missing_no_record :
    (evaluate_model ⟨fun _ => false, fun _ => none⟩ "missing.obj"
        "a red cube" "text" []).1 = 0 ∧
    ¬ ∃ r, (evaluate_model ⟨fun _ => false, fun _ => none⟩ "missing.obj"
        "a red cube" "text" []).2 = [r] := by
  constructor
  · rfl
  · rintro ⟨r, hr⟩
    simp [evaluate_model] at hr

/-- C2 (amended): if the artifact file is missing or cannot be loaded as a
mesh, `evaluate_model` returns exactly 0.0 without computing any sub-score,
and leaves the evaluation table unchanged (no record is persisted). -/
theorem evaluate_model_failure_returns_zero (env : EvalEnv)
    (p d t : String) (db : List EvaluationRecord)
    (h : env.fs p = false ∨ env.load_mesh p = none) :
    evaluate_model env p d t db = (0, db) := by
  unfold evaluate_model
  rcases h with h | h
  · simp [h]
  · by_cases hf : env.fs p <;> simp [hf, h]

/-- Witness for C2's amended theorem at a concrete missing file. -/
theorem evaluate_model_failure_returns_zero_witness :
    ((fun _ : String => false) "missing.obj" = false) ∧
    evaluate_model ⟨fun _ => false, fun _ => none⟩ "missing.obj"
      "a red cube" "text" [] = (0, []) :=
  ⟨rfl, evaluate_model_failure_returns_zero _ _ _ _ _ (Or.inl rfl)⟩

/-- C5: when the text embedding model is unavailable, `get_cached_model`
returns `None` for every text input and every cache state (in particular
for states already holding the byte-identical content), and `cache_model`
leaves the cache state unchanged. -/
theorem text_model_unavailable (md5 : String → String)
    (cos : List ℚ → List ℚ → ℚ) (rf : String → Option String)
    (ex : String → Option (List ℚ)) (thr : ℚ) (now : Nat)
    (text mp : String) (qs gt : ℚ) (st : CacheState) :
    get_cached_model ⟨md5, none, cos, rf, ex, thr⟩ now text "text" st
      = (none, st) ∧
    cache_model ⟨md5, none, cos, rf, ex, thr⟩ now text "text" mp qs gt st
      = st :=
  ⟨rfl, rfl⟩

/-- C10: for every `input_type` other than "text" and "image",
`get_cached_model` reports a miss and `cache_model` changes nothing; both
embeddings are total functions, matching the catch-all exception handlers
of the source. -/
theorem unknown_input_type_is_noop (env : CacheEnv) (now : Nat)
    (d ty mp : String) (qs gt : ℚ) (st : CacheState)
    (h1 : ty ≠ "text") (h2 : ty ≠ "image") :
    get_cached_model env now d ty st = (none, st) ∧
    cache_model env now d ty mp qs gt st = st := by
  constructor <;>
    simp [get_cached_model, cache_model, beq_iff_eq, h1, h2]

/-- Witness for C10 at the concrete unknown type "audio". -/
theorem unknown_input_type_is_noop_witness :
    ("audio" : String) ≠ "text" ∧ ("audio" : String) ≠ "image" ∧
    get_cached_model trivial_env 0 "x" "audio" empty_cache
      = (none, empty_cache) ∧
    cache_model trivial_env 0 "x" "audio" "m.obj" 0 0 empty_cache
      = empty_cache :=
  ⟨by decide, by decide,
    (unknown_input_type_is_noop trivial_env 0 "x" "audio" "m.obj" 0 0
      empty_cache (by decide) (by decide)).1,
    (unknown_input_type_is_noop trivial_env 0 "x" "audio" "m.obj" 0 0
      empty_cache (by decide) (by decide)).2⟩

/-- C8: a mesh with none of the four texture features scores exactly 0.5
and a mesh with all four scores exactly 1.0 (the raw sum 1.2 clamped). -/
theorem texture_baseline_and_saturation (m : Mesh) (p : String)
    (fs : String → Bool) :
    (m.has_uv = false → m.has_vertex_colors = false →
      m.has_material = false →
      (str_ends_with p ".obj" && fs (replace_obj_with_mtl p)) = false →
      evaluate_texture m p fs = 1/2) ∧
    (m.has_uv = true → m.has_vertex_colors = true → m.has_material = true →
      (str_ends_with p ".obj" && fs (replace_obj_with_mtl p)) = true →
      evaluate_texture m p fs = 1) := by
  constructor <;> intro h1 h2 h3 h4 <;>
    simp [evaluate_texture, h1, h2, h3, h4] <;> norm_num [min_def]

/-- Witness for C8 at a featureless mesh and a fully featured mesh. -/
theorem texture_baseline_and_saturation_witness :
    evaluate_texture
      { vertices := 8, faces := 6, is_watertight := true,
        is_self_intersecting := false, degenerate_faces := 0,
        has_uv := false, has_vertex_colors := false, has_material := false,
        volume_positive := true, aspect_under_10 := true }
      "model.glb" (fun _ => false) = 1/2 ∧
    evaluate_texture
      { vertices := 8, faces := 6, is_watertight := true,
        is_self_intersecting := false, degenerate_faces := 0,
        has_uv := true, has_vertex_colors := true, has_material := true,
        volume_positive := true, aspect_under_10 := true }
      "model.obj" (fun _ => true) = 1 :=
  ⟨(texture_baseline_and_saturation _ "model.glb" _).1 rfl rfl rfl
      (by decide),
    (texture_baseline_and_saturation _ "model.obj" _).2 rfl rfl rfl
      (by decide)⟩

/-- C9: the texture score always equals the three-feature base plus the
0.2 material-file bonus added exactly when the path ends in ".obj" and the
path with ".obj" replaced by ".mtl" exists, clamped at 1; for a path not
ending in ".obj" the bonus is never granted and the score equals the base,
which is at most 1. -/
theorem texture_mtl_bonus_characterisation (m : Mesh) (p : String)
    (fs : String → Bool) :
    evaluate_texture m p fs =
      min 1 (base_texture m +
        (if str_ends_with p ".obj" && fs (replace_obj_with_mtl p)
         then (2 : ℚ)/10 else 0)) ∧
    (str_ends_with p ".obj" = false →
      evaluate_texture m p fs = base_texture m ∧
      evaluate_texture m p fs ≤ 1) := by
  have hbase : base_texture m ≤ 1 := by
    unfold base_texture
    cases hu : m.has_uv <;> cases hv : m.has_vertex_colors <;>
      cases hm : m.has_material <;> norm_num
  constructor
  · unfold evaluate_texture base_texture
    cases hu : m.has_uv <;> cases hv : m.has_vertex_colors <;>
      cases hm : m.has_material <;>
      cases hb : (str_ends_with p ".obj" && fs (replace_obj_with_mtl p)) <;>
      norm_num
  · intro hp
    have hb : (str_ends_with p ".obj" && fs (replace_obj_with_mtl p)) = false := by
      simp [hp]
    have h1 : evaluate_texture m p fs = base_texture m := by
      unfold evaluate_texture base_texture
      cases hu : m.has_uv <;> cases hv : m.has_vertex_colors <;>
        cases hm : m.has_material <;> simp [hb] <;> norm_num [min_def]
    exact ⟨h1, h1 ▸ hbase⟩

/-- Witness for C9 at a non-OBJ path with the other three features all
present (score exactly 1.0 without any material-file bonus). -/
theorem texture_mtl_bonus_characterisation_witness :
    str_ends_with "model.glb" ".obj" = false ∧
    evaluate_texture
      { vertices := 8, faces := 6, is_watertight := true,
        is_self_intersecting := false, degenerate_faces := 0,
        has_uv := true, has_vertex_colors := true, has_material := true,
        volume_positive := true, aspect_under_10 := true }
      "model.glb" (fun _ => true) = base_texture
      { vertices := 8, faces := 6, is_watertight := true,
        is_self_intersecting := false, degenerate_faces := 0,
        has_uv := true, has_vertex_colors := true, has_material := true,
        volume_positive := true, aspect_under_10 := true } :=
  ⟨by decide,
    ((texture_mtl_bonus_characterisation _ "model.glb" _).2 (by decide)).1⟩

/-- C1: on a best-case artifact (watertight textured triangulated sphere,
1000 vertices, 1996 faces, positive volume, sibling MTL file, input text
"a detailed dragon") the returned overall score is 26/25 = 1.04, which is
the weighted sum 0.3·1 + 0.2·1 + 0.3·1 + 0.2·1.2 but lies outside [0, 1]:
the performance sub-score 1.2 is clamped below at 0 only, and the weighted
sum is not clamped either, contradicting the docstring "(0-1)". -/
theorem overall_score_exceeds_one :
    (evaluate_model bug_env "sphere.obj" "a detailed dragon" "text" []).1
      = 26/25 ∧
    (1 : ℚ) < (evaluate_model bug_env "sphere.obj" "a detailed dragon"
      "text" []).1 := by
  have hg : evaluate_geometry bug_mesh = 1 := by
    norm_num [evaluate_geometry, bug_mesh]
  have hb : (str_ends_with "sphere.obj" ".obj" &&
      bug_env.fs (replace_obj_with_mtl "sphere.obj")) = true := by decide
  have ht : evaluate_texture bug_mesh "sphere.obj" bug_env.fs = 1 := by
    norm_num [evaluate_texture, bug_mesh, hb, min_def]
  have hsimple : containsAny (to_lower "a detailed dragon") simple_words
      = false := by decide
  have hcomplex : containsAny (to_lower "a detailed dragon") complex_words
      = true := by decide
  have hf : evaluate_fidelity bug_mesh "a detailed dragon" "text" = 1 := by
    norm_num [evaluate_fidelity, bug_mesh, hsimple, hcomplex, min_def,
      max_def]
  have hp : evaluate_performance bug_mesh = 12/10 := by
    norm_num [evaluate_performance, bug_mesh, max_def]
  have hfs : bug_env.fs "sphere.obj" = true := by decide
  have hload : bug_env.load_mesh "sphere.obj" = some bug_mesh := by decide
  have hmain : (evaluate_model bug_env "sphere.obj" "a detailed dragon"
      "text" []).1 = 26/25 := by
    simp only [evaluate_model, hfs, if_true, hload]
    rw [hg, ht, hf, hp]
    norm_num [quality_weights_geometry, quality_weights_texture,
      quality_weights_fidelity, quality_weights_performance]
  refine ⟨hmain, ?_⟩
  rw [hmain]
  norm_num

/-- C7: the geometry sub-score is exactly 1 for every watertight,
non-self-intersecting mesh with face/vertex ratio in [1.5, 3], vertex count
in [10, 100000] and no degenerate faces, yet the overall evaluation score
is not always within [0, 1]: on `c7_mesh` (which satisfies all of those
conditions) the returned score is 26/25. -/
theorem geometry_perfect_but_score_exceeds_one :
    (∀ m : Mesh, m.is_watertight = true → m.is_self_intersecting = false →
      3/2 ≤ (m.faces : ℚ) / (m.vertices : ℚ) →
      (m.faces : ℚ) / (m.vertices : ℚ) ≤ 3 →
      10 ≤ m.vertices → m.vertices ≤ 100000 → m.degenerate_faces = 0 →
      evaluate_geometry m = 1) ∧
    (evaluate_model c7_env "castle.obj" "a detailed castle" "text" []).1
      = 26/25 ∧
    (1 : ℚ) < (evaluate_model c7_env "castle.obj" "a detailed castle"
      "text" []).1 := by
  have hg : evaluate_geometry c7_mesh = 1 := by
    norm_num [evaluate_geometry, c7_mesh]
  have hb : (str_ends_with "castle.obj" ".obj" &&
      c7_env.fs (replace_obj_with_mtl "castle.obj")) = true := by decide
  have ht : evaluate_texture c7_mesh "castle.obj" c7_env.fs = 1 := by
    norm_num [evaluate_texture, c7_mesh, hb, min_def]
  have hsimple : containsAny (to_lower "a detailed castle") simple_words
      = false := by decide
  have hcomplex : containsAny (to_lower "a detailed castle") complex_words
      = true := by decide
  have hf : evaluate_fidelity c7_mesh "a detailed castle" "text" = 1 := by
    norm_num [evaluate_fidelity, c7_mesh, hsimple, hcomplex, min_def,
      max_def]
  have hp : evaluate_performance c7_mesh = 12/10 := by
    norm_num [evaluate_performance, c7_mesh, max_def]
  have hfs : c7_env.fs "castle.obj" = true := by decide
  have hload : c7_env.load_mesh "castle.obj" = some c7_mesh := by decide
  have hmain : (evaluate_model c7_env "castle.obj" "a detailed castle"
      "text" []).1 = 26/25 := by
    simp only [evaluate_model, hfs, if_true, hload]
    rw [hg, ht, hf, hp]
    norm_num [quality_weights_geometry, quality_weights_texture,
      quality_weights_fidelity, quality_weights_performance]
  refine ⟨?_, hmain, by rw [hmain]; norm_num⟩
  intro m hw hsi hr1 hr2 hv1 hv2 hd
  have h0v : 0 < m.vertices := by omega
  have h1 : ¬ ((m.faces : ℚ) / (m.vertices : ℚ) < 3/2 ∨
      3 < (m.faces : ℚ) / (m.vertices : ℚ)) := by
    push_neg
    exact ⟨hr1, hr2⟩
  have h2 : ¬ m.vertices < 10 := by omega
  have h3 : ¬ 100000 < m.vertices := by omega
  have h4 : ¬ 0 < m.degenerate_faces := by omega
  simp [evaluate_geometry, hw, hsi, h0v, h1, h2, h3, h4]

/-- Witness for C7's theorem: its universally quantified part applied to
the concrete mesh `c7_mesh`, whose hypotheses all hold. -/
theorem geometry_perfect_but_score_exceeds_one_witness :
    c7_mesh.is_watertight = true ∧ c7_mesh.is_self_intersecting = false ∧
    3/2 ≤ (c7_mesh.faces : ℚ) / (c7_mesh.vertices : ℚ) ∧
    (c7_mesh.faces : ℚ) / (c7_mesh.vertices : ℚ) ≤ 3 ∧
    10 ≤ c7_mesh.vertices ∧ c7_mesh.vertices ≤ 100000 ∧
    c7_mesh.degenerate_faces = 0 ∧ evaluate_geometry c7_mesh = 1 :=
  ⟨rfl, rfl, by norm_num [c7_mesh], by norm_num [c7_mesh], by norm_num [c7_mesh],
    by norm_num [c7_mesh], rfl,
    geometry_perfect_but_score_exceeds_one.1 c7_mesh rfl rfl
      (by norm_num [c7_mesh]) (by norm_num [c7_mesh]) (by norm_num [c7_mesh])
      (by norm_num [c7_mesh]) rfl⟩

/-- Searching for key `b` in a list purged of `b`-keyed entries and ended
by a fresh `b`-keyed entry finds exactly the fresh entry. -/
theorem find_key_filter_append {α β : Type} [BEq β] [LawfulBEq β]
    (f : α → β) (b : β) (l : List α) (a : α) (ha : f a = b) :
    ((l.filter fun r => !(f r == b)) ++ [a]).find? (fun r => f r == b)
      = some a := by
  induction l with
  | nil => simp [List.find?, ha]
  | cons x xs ih =>
    by_cases hx : f x = b
    · simpa [List.filter_cons, hx] using ih
    · have hbeq : (f x == b) = false := beq_eq_false_iff_ne.mpr hx
      simpa [List.filter_cons, hbeq, List.find?] using ih

/-- Purging one key from a key-distinct list and appending a fresh entry
with that key keeps all keys pairwise distinct. -/
theorem pairwise_key_filter_append {α β : Type} [BEq β] [LawfulBEq β]
    (f : α → β) (l : List α) (a : α)
    (hl : l.Pairwise fun x y => f x ≠ f y) :
    ((l.filter fun r => !(f r == f a)) ++ [a]).Pairwise
      (fun x y => f x ≠ f y) := by
  rw [List.pairwise_append]
  refine ⟨hl.filter _, by simp, ?_⟩
  intro x hx y hy
  rcases List.mem_singleton.mp hy with rfl
  have hmem := (List.mem_filter.mp hx).2
  simpa using hmem

/-- C4: storing a text input and then looking up a byte-identical input
(with the text model available) yields an exact cache hit carrying the
stored artifact path, because both inputs map to the same content hash. -/
theorem store_then_lookup_exact_hit (md5 : String → String)
    (enc : String → List ℚ) (cos : List ℚ → List ℚ → ℚ)
    (rf : String → Option String) (ex : String → Option (List ℚ))
    (thr : ℚ) (A B mp : String) (qs gt : ℚ) (now now2 : Nat)
    (st : CacheState) (hAB : A = B) :
    (get_cached_model ⟨md5, some enc, cos, rf, ex, thr⟩ now2 B "text"
        (cache_model ⟨md5, some enc, cos, rf, ex, thr⟩ now A "text" mp qs gt
          st)).1 =
      some { model_path := mp, quality_score := qs, generation_time := gt,
             cache_type := "exact", similarity := none } := by
  subst hAB
  simp only [get_cached_model, cache_model, beq_self_eq_true, if_true,
    get_cached_text_model, cache_text_model]
  rw [find_key_filter_append TextCacheRecord.input_hash (md5 A) _ _ rfl]

/-- Witness for C4 at the spec's concrete scenario: the text "a red cube"
stored with artifact `m1.obj` and looked up again byte-identically. -/
theorem store_then_lookup_exact_hit_witness :
    ("a red cube" : String) = "a red cube" ∧
    (get_cached_model text_env 1 "a red cube" "text"
        (cache_model text_env 0 "a red cube" "text" "m1.obj" 0 0
          empty_cache)).1 =
      some { model_path := "m1.obj", quality_score := 0,
             generation_time := 0, cache_type := "exact",
             similarity := none } :=
  ⟨rfl, store_then_lookup_exact_hit (fun s => s) (fun _ => [])
    (fun _ _ => 0) (fun _ => none) (fun _ => none) (85/100) "a red cube"
    "a red cube" "m1.obj" 0 0 0 1 empty_cache rfl⟩

/-- C6: across every sequence of store operations each fingerprint
identifies at most one record per modality, and a text store (with the
model available) leaves, under its fingerprint, exactly one fresh record
with `access_count = 1` and both timestamps equal to the store time —
also when the fingerprint already existed (`INSERT OR REPLACE`). -/
theorem fingerprint_unique_and_replace_resets (env : CacheEnv)
    (ops : List CacheOp) (st : CacheState) (hst : hash_unique st) :
    hash_unique (apply_ops env ops st) ∧
    (∀ enc now text mp qs gt st2, env.text_model = some enc →
      (cache_text_model env now text mp qs gt st2).text_cache.find?
          (fun r => r.input_hash == env.md5 text) =
        some { id := st2.next_text_id, input_hash := env.md5 text,
               input_text := text, embedding := enc text, model_path := mp,
               quality_score := qs, generation_time := gt,
               created_at := now, last_accessed := now,
               access_count := 1 }) := by
  constructor
  · induction ops generalizing st with
    | nil => exact hst
    | cons op ops ih =>
      refine ih _ ?_
      obtain ⟨h1, h2⟩ := hst
      cases op with
      | storeText now text mp qs gt =>
        cases henc : env.text_model with
        | none =>
          simpa only [apply_op, cache_text_model, henc] using ⟨h1, h2⟩
        | some enc =>
          simp only [apply_op, cache_text_model, henc, hash_unique]
          exact ⟨pairwise_key_filter_append TextCacheRecord.input_hash
            st.text_cache
            { id := st.next_text_id, input_hash := env.md5 text,
              input_text := text, embedding := enc text, model_path := mp,
              quality_score := qs, generation_time := gt, created_at := now,
              last_accessed := now, access_count := 1 } h1, h2⟩
      | storeImage now p mp qs gt =>
        cases hrf : env.read_file p with
        | none =>
          simpa only [apply_op, cache_image_model, hrf] using ⟨h1, h2⟩
        | some bytes =>
          cases hex : env.extract_features p with
          | none =>
            simpa only [apply_op, cache_image_model, hrf, hex] using ⟨h1, h2⟩
          | some feats =>
            simp only [apply_op, cache_image_model, hrf, hex, hash_unique]
            exact ⟨h1, pairwise_key_filter_append ImageCacheRecord.input_hash
              st.image_cache
              { id := st.next_image_id, input_hash := env.md5 bytes,
                image_path := p, features := feats, model_path := mp,
                quality_score := qs, generation_time := gt,
                created_at := now, last_accessed := now,
                access_count := 1 } h2⟩
  · intro enc now text mp qs gt st2 henc
    simp only [cache_text_model, henc]
    exact find_key_filter_append TextCacheRecord.input_hash (env.md5 text)
      _ _ rfl

/-- Witness for C6: one concrete store on the empty cache, whose
fingerprint-uniqueness hypothesis holds trivially, plus the stats-reset
conclusion at a concrete repeated store. -/
theorem fingerprint_unique_and_replace_resets_witness :
    hash_unique empty_cache ∧
    hash_unique (apply_ops text_env
      [CacheOp.storeText 5 "a cube" "m1.obj" 0 0,
       CacheOp.storeText 9 "a cube" "m2.obj" 0 0] empty_cache) ∧
    (cache_text_model text_env 9 "a cube" "m2.obj" 0 0
        (cache_text_model text_env 5 "a cube" "m1.obj" 0 0
          empty_cache)).text_cache.find?
        (fun r => r.input_hash == text_env.md5 "a cube") =
      some { id := 1, input_hash := "a cube", input_text := "a cube",
             embedding := [], model_path := "m2.obj", quality_score := 0,
             generation_time := 0, created_at := 9, last_accessed := 9,
             access_count := 1 } :=
  ⟨⟨List.Pairwise.nil, List.Pairwise.nil⟩,
    (fingerprint_unique_and_replace_resets text_env
      [CacheOp.storeText 5 "a cube" "m1.obj" 0 0,
       CacheOp.storeText 9 "a cube" "m2.obj" 0 0] empty_cache
      ⟨List.Pairwise.nil, List.Pairwise.nil⟩).1,
    (fingerprint_unique_and_replace_resets text_env [] empty_cache
      ⟨List.Pairwise.nil, List.Pairwise.nil⟩).2 (fun _ => []) 9 "a cube"
      "m2.obj" 0 0
      (cache_text_model text_env 5 "a cube" "m1.obj" 0 0 empty_cache) rfl⟩

/-- Two pointwise equal predicates find the same first element. -/
theorem find_congr_mem (p q : α → Bool) (l : List α)
    (h : ∀ x ∈ l, p x = q x) : l.find? p = l.find? q := by
  induction l with
  | nil => rfl
  | cons x xs ih =>
    have hx := h x (List.mem_cons_self x xs)
    simp only [List.find?, hx]
    cases hq : q x
    · exact ih fun y hy => h y (List.mem_cons_of_mem _ hy)
    · rfl

/-- If some element of `l` clears the threshold and the level `b`, then
some element of `l` dominates `l` at level `b`. -/
theorem exists_dominator (sim : α → ℚ) (thr b : ℚ) (l : List α)
    (h : ∃ z ∈ l, thr ≤ sim z ∧ b < sim z) :
    ∃ y ∈ l, dominates sim thr b l y := by
  induction l with
  | nil =>
    obtain ⟨z, hz, -⟩ := h
    exact absurd hz (List.not_mem_nil z)
  | cons x xs ih =>
    by_cases hxs : ∃ z ∈ xs, thr ≤ sim z ∧ b < sim z
    · obtain ⟨y, hy, hy1, hy2, hy3⟩ := ih hxs
      by_cases hx : thr ≤ sim x ∧ b < sim x
      · by_cases hxy : sim x ≤ sim y
        · refine ⟨y, List.mem_cons_of_mem x hy, hy1, hy2, ?_⟩
          intro z hz hz1 hz2
          rcases List.mem_cons.mp hz with rfl | hz'
          · exact hxy
          · exact hy3 z hz' hz1 hz2
        · push_neg at hxy
          refine ⟨x, List.mem_cons_self x xs, hx.1, hx.2, ?_⟩
          intro z hz hz1 hz2
          rcases List.mem_cons.mp hz with rfl | hz'
          · exact le_refl _
          · exact le_trans (hy3 z hz' hz1 hz2) (le_of_lt hxy)
      · refine ⟨y, List.mem_cons_of_mem x hy, hy1, hy2, ?_⟩
        intro z hz hz1 hz2
        rcases List.mem_cons.mp hz with rfl | hz'
        · exact absurd ⟨hz1, hz2⟩ hx
        · exact hy3 z hz' hz1 hz2
    · obtain ⟨z, hz, hz1⟩ := h
      rcases List.mem_cons.mp hz with rfl | hz'
      · refine ⟨z, List.mem_cons_self z xs, hz1.1, hz1.2, ?_⟩
        intro w hw hw1 hw2
        rcases List.mem_cons.mp hw with rfl | hw'
        · exact le_refl _
        · exact absurd ⟨w, hw', hw1, hw2⟩ hxs
      · exact absurd ⟨z, hz', hz1⟩ hxs

/-- Characterisation of the similarity scan: from accumulator `(best, bm)`
it returns the first record dominating the remaining store at level
`best`, or the accumulated match if there is none. -/
theorem scan_similar_eq_find (sim : α → ℚ) (thr : ℚ) :
    ∀ (xs : List α) (best : ℚ) (bm : Option α),
    scan_similar sim thr xs best bm =
      ((xs.find? fun y => decide (dominates sim thr best xs y)).or bm) := by
  intro xs
  induction xs with
  | nil => intro best bm; rfl
  | cons x xs ih =>
    intro best bm
    rw [scan_similar]
    by_cases hc : best < sim x ∧ thr ≤ sim x
    · rw [if_pos hc, ih]
      by_cases hx : ∀ z ∈ xs, thr ≤ sim z → best < sim z → sim z ≤ sim x
      · have hdx : dominates sim thr best (x :: xs) x := by
          refine ⟨hc.2, hc.1, ?_⟩
          intro z hz hz1 hz2
          rcases List.mem_cons.mp hz with rfl | hz'
          · exact le_refl _
          · exact hx z hz' hz1 hz2
        have hfind : ((x :: xs).find? fun y =>
            decide (dominates sim thr best (x :: xs) y)) = some x :=
          List.find?_cons_of_pos _ (decide_eq_true hdx)
        have hnone : (xs.find? fun y =>
            decide (dominates sim thr (sim x) xs y)) = none := by
          rw [List.find?_eq_none]
          intro y hy hdy
          obtain ⟨h1, h2, -⟩ := of_decide_eq_true hdy
          have := hx y hy h1 (lt_trans hc.1 h2)
          exact absurd h2 (not_lt.mpr this)
        rw [hfind, hnone]
        rfl
      · push_neg at hx
        obtain ⟨w, hw, hw1, hw2, hw3⟩ := hx
        have hndx : ¬ dominates sim thr best (x :: xs) x := by
          rintro ⟨-, -, h3⟩
          exact absurd (h3 w (List.mem_cons_of_mem x hw) hw1 hw2)
            (not_le.mpr hw3)
        have hstep : ((x :: xs).find? fun y =>
            decide (dominates sim thr best (x :: xs) y)) =
            xs.find? fun y => decide (dominates sim thr best (x :: xs) y) :=
          List.find?_cons_of_neg _ (by simp [hndx])
        have hcong : (xs.find? fun y =>
            decide (dominates sim thr (sim x) xs y)) =
            xs.find? fun y => decide (dominates sim thr best (x :: xs) y) := by
          apply find_congr_mem
          intro y hy
          simp only [decide_eq_decide]
          constructor
          · rintro ⟨h1, h2, h3⟩
            refine ⟨h1, lt_trans hc.1 h2, ?_⟩
            intro z hz hz1 hz2
            rcases List.mem_cons.mp hz with rfl | hz'
            · exact le_of_lt h2
            · by_cases hzx : sim z ≤ sim x
              · exact le_trans hzx (le_of_lt h2)
              · exact h3 z hz' hz1 (not_le.mp hzx)
          · rintro ⟨h1, h2, h3⟩
            have hwy : sim w ≤ sim y :=
              h3 w (List.mem_cons_of_mem x hw) hw1 hw2
            refine ⟨h1, lt_of_lt_of_le hw3 hwy, ?_⟩
            intro z hz hz1 hz2
            exact h3 z (List.mem_cons_of_mem x hz) hz1 (lt_trans hc.1 hz2)
        rw [hstep, hcong]
        have hex : ∃ y ∈ xs, dominates sim thr best (x :: xs) y := by
          obtain ⟨y, hy, hy1, hy2, hy3⟩ :=
            exists_dominator sim thr best xs ⟨w, hw, hw1, hw2⟩
          have hwy : sim w ≤ sim y := hy3 w hw hw1 hw2
          refine ⟨y, hy, hy1, hy2, ?_⟩
          intro z hz hz1 hz2
          rcases List.mem_cons.mp hz with rfl | hz'
          · exact le_trans (le_of_lt hw3) hwy
          · exact hy3 z hz' hz1 hz2
        obtain ⟨y, hy, hdy⟩ := hex
        cases hfind : xs.find? fun y =>
            decide (dominates sim thr best (x :: xs) y) with
        | some u => rfl
        | none =>
          rw [List.find?_eq_none] at hfind
          exact absurd (decide_eq_true hdy) (hfind y hy)
    · rw [if_neg hc, ih]
      have hndx : ¬ dominates sim thr best (x :: xs) x := by
        rintro ⟨h1, h2, -⟩
        exact hc ⟨h2, h1⟩
      have hstep : ((x :: xs).find? fun y =>
          decide (dominates sim thr best (x :: xs) y)) =
          xs.find? fun y => decide (dominates sim thr best (x :: xs) y) :=
        List.find?_cons_of_neg _ (by simp [hndx])
      have hcong : (xs.find? fun y =>
          decide (dominates sim thr best xs y)) =
          xs.find? fun y => decide (dominates sim thr best (x :: xs) y) := by
        apply find_congr_mem
        intro y hy
        simp only [decide_eq_decide]
        constructor
        · rintro ⟨h1, h2, h3⟩
          refine ⟨h1, h2, ?_⟩
          intro z hz hz1 hz2
          rcases List.mem_cons.mp hz with rfl | hz'
          · exact absurd ⟨hz2, hz1⟩ hc
          · exact h3 z hz' hz1 hz2
        · rintro ⟨h1, h2, h3⟩
          exact ⟨h1, h2, fun z hz hz1 hz2 =>
            h3 z (List.mem_cons_of_mem x hz) hz1 hz2⟩
      rw [hstep, hcong]

/-- The fold computing `best_sim` is an upper bound of all similarities and
is attained by some element. -/
theorem best_sim_spec (sim : α → ℚ) (x : α) (xs : List α) :
    (∀ y ∈ x :: xs, sim y ≤ best_sim sim x xs) ∧
    ∃ y ∈ x :: xs, sim y = best_sim sim x xs := by
  have hle : ∀ (l : List α) (b : ℚ),
      b ≤ l.foldl (fun acc y => max acc (sim y)) b ∧
      ∀ y ∈ l, sim y ≤ l.foldl (fun acc y => max acc (sim y)) b := by
    intro l
    induction l with
    | nil => intro b; exact ⟨le_refl b, by simp⟩
    | cons z zs ih =>
      intro b
      simp only [List.foldl_cons]
      constructor
      · exact le_trans (le_max_left b (sim z)) (ih (max b (sim z))).1
      · intro y hy
        rcases List.mem_cons.mp hy with rfl | hy'
        · exact le_trans (le_max_right b (sim y)) (ih (max b (sim y))).1
        · exact (ih (max b (sim z))).2 y hy'
  have hat : ∀ (l : List α) (b : ℚ),
      l.foldl (fun acc y => max acc (sim y)) b = b ∨
      ∃ y ∈ l, l.foldl (fun acc y => max acc (sim y)) b = sim y := by
    intro l
    induction l with
    | nil => intro b; exact Or.inl rfl
    | cons z zs ih =>
      intro b
      simp only [List.foldl_cons]
      rcases ih (max b (sim z)) with h | ⟨y, hy, hyy⟩
      · rcases max_choice b (sim z) with hm | hm
        · exact Or.inl (h.trans hm)
        · exact Or.inr ⟨z, List.mem_cons_self z zs, h.trans hm⟩
      · exact Or.inr ⟨y, List.mem_cons_of_mem z hy, hyy⟩
  constructor
  · intro y hy
    rcases List.mem_cons.mp hy with rfl | hy'
    · exact (hle xs (sim y)).1
    · exact (hle xs (sim x)).2 y hy'
  · rcases hat xs (sim x) with h | ⟨y, hy, hyy⟩
    · exact ⟨x, List.mem_cons_self x xs, h.symm⟩
    · exact ⟨y, List.mem_cons_of_mem x hy, hyy.symm⟩

/-- C3 (amended): for every store, query similarity assignment and
threshold, the similarity search of the cache manager returns exactly the
record prescribed by the amended nearest contract: the earliest-inserted
record attaining the highest similarity, provided that similarity is at
least the threshold and strictly positive; nothing on an empty store or
when the best similarity is below the threshold or not positive. -/
theorem similar_search_eq_nearest_amended (sim : α → ℚ) (thr : ℚ)
    (store : List α) :
    similar_search sim thr store = nearest_amended sim thr store := by
  cases store with
  | nil => rfl
  | cons x xs =>
    rw [similar_search, scan_similar_eq_find]
    simp only [nearest_amended]
    have hub := (best_sim_spec sim x xs).1
    have hattain := (best_sim_spec sim x xs).2
    by_cases hMc : thr ≤ best_sim sim x xs ∧ 0 < best_sim sim x xs
    · rw [if_pos hMc]
      have hcong : ((x :: xs).find? fun y =>
          decide (dominates sim thr 0 (x :: xs) y)) =
          (x :: xs).find? fun y => decide (sim y = best_sim sim x xs) := by
        apply find_congr_mem
        intro y hy
        simp only [decide_eq_decide]
        constructor
        · rintro ⟨h1, h2, h3⟩
          obtain ⟨a, ha, haM⟩ := hattain
          have h1a : thr ≤ sim a := by rw [haM]; exact hMc.1
          have h2a : (0 : ℚ) < sim a := by rw [haM]; exact hMc.2
          have haly : sim a ≤ sim y := h3 a ha h1a h2a
          exact le_antisymm (hub y hy) (haM ▸ haly)
        · intro hyM
          refine ⟨by rw [hyM]; exact hMc.1, by rw [hyM]; exact hMc.2, ?_⟩
          intro z hz hz1 hz2
          rw [hyM]
          exact hub z hz
      rw [hcong]
      cases hfind : (x :: xs).find? fun y =>
          decide (sim y = best_sim sim x xs) with
      | some u => rfl
      | none => rfl
    · rw [if_neg hMc]
      have hnone : ((x :: xs).find? fun y =>
          decide (dominates sim thr 0 (x :: xs) y)) = none := by
        rw [List.find?_eq_none]
        intro y hy hdy
        obtain ⟨h1, h2, -⟩ := of_decide_eq_true hdy
        exact hMc ⟨le_trans h1 (hub y hy), lt_of_lt_of_le h2 (hub y hy)⟩
      rw [hnone]
      rfl

/-- C3 (counterexample): at threshold 0 — a legal configuration, the spec
thresholds similarities in [0, 1] — a single stored record whose embedding
(1, 0) is orthogonal to the query vector (0, 1), so that the cosine
similarity is exactly 0 and hence exactly at the threshold, is NOT returned
by the scan, although the claimed contract returns it (exactly-at-threshold
counts as a hit).  The similarity function is the dot product, which equals
the cosine similarity of these unit vectors. -/
theorem nearest_at_zero_threshold_counterexample :
    similar_search (fun r => dotQ [0, 1] r.embedding) 0 [ortho_record]
      = none ∧
    nearest_spec (fun r => dotQ [0, 1] r.embedding) 0 [ortho_record]
      = some ortho_record := by
  have hsim : dotQ [0, 1] ortho_record.embedding = 0 := by
    norm_num [dotQ, ortho_record]
  constructor
  · simp [similar_search, scan_similar, hsim]
  · simp [nearest_spec, best_sim, List.find?, hsim]

end ModelGen
